import Mathlib

/-
Verification of the data-driven API test execution engine of the Archives
repository (Eve_Pytest / PyTest subtrees).

The engine is embedded shallowly:
 * Parsed Python data (the values that travel through the engine: parsed
   JSON bodies, `eval`-ed header/payload cells, yaml documents) is the
   inductive type `PyVal`.
 * Python operations used by the engine (`str`, `==`, `in`, subscripting,
   dict assignment, `.lower()`, `.strip()`) are modelled as total Lean
   functions; operations that can raise return `Except String` carrying
   the exception message.
 * The HTTP transport is a parameter `net : RequestArgs → NetOutcome`;
   a network-level failure (timeout, connection refused, DNS failure)
   is the `exn` outcome.
 * The spreadsheet seen by pandas is a `Grid` (rows of optional cells,
   `none` = blank/NaN); the on-disk workbook seen by openpyxl is a
   `Worksheet` (1-based cell array with values and font styles).

Sources embedded (file → Lean definitions):
 * Eve_Pytest-main/tools/request_tool.py   → send_request
 * Eve_Pytest-main/tools/reponse_tool.py   → Response_result
 * pytest/PyTest/tools/manage.py           → create_result, validate,
                                             execute_test_case
 * Eve_Pytest-main/tools/excel_tool.py     → COLUMNS, STYLES,
                                             get_cell_value, build_excel_case,
                                             load_test_cases, write_cell,
                                             write_to_excel
 * Eve_Pytest-main/tools/yaml_tool.py      → entry_tests, yaml_collect,
                                             load_test_cases_yaml
 * Eve_Pytest-main/testCase/api/test_api.py → test_excel_api, run_suite
-/

namespace Archives

/-- Parsed Python values flowing through the engine: the results of
`res.json()`, of `eval` on spreadsheet cells, and of yaml parsing. -/
inductive PyVal where
  | vNone
  | vBool (b : Bool)
  | vInt (n : Int)
  | vStr (s : String)
  | vList (xs : List PyVal)
  | vDict (xs : List (String × PyVal))

mutual

/-- Python `repr` of a parsed value, as used by `str` on dicts/lists
(string escaping inside quotes is not modelled; the engine's values
contain no quote characters). -/
def pyRepr : PyVal → String
  | .vNone => "None"
  | .vBool true => "True"
  | .vBool false => "False"
  | .vInt n => toString n
  | .vStr s => "\x27" ++ s ++ "\x27"
  | .vList xs => "[" ++ pyReprList xs ++ "]"
  | .vDict xs => "\x7b" ++ pyReprDict xs ++ "\x7d"

/-- Comma-separated `repr` of list elements. -/
def pyReprList : List PyVal → String
  | [] => ""
  | [x] => pyRepr x
  | x :: y :: rest => pyRepr x ++ ", " ++ pyReprList (y :: rest)

/-- Comma-separated `repr` of dict items. -/
def pyReprDict : List (String × PyVal) → String
  | [] => ""
  | [(k, v)] => "\x27" ++ k ++ "\x27: " ++ pyRepr v
  | (k, v) :: y :: rest =>
      "\x27" ++ k ++ "\x27: " ++ pyRepr v ++ ", " ++ pyReprDict (y :: rest)

end

/-- Python `str` of a parsed value: a string is returned as itself,
every other value falls back to its `repr`. -/
def pyStr : PyVal → String
  | .vStr s => s
  | v => pyRepr v

mutual

/-- Python `==` restricted to the value shapes the engine compares.
Numeric cross-type tolerance exists only between `bool` and `int`
(Python booleans are integers); every other cross-type comparison is
`False`, in particular `str` vs `int`.  Containers compare pointwise. -/
def pyEq : PyVal → PyVal → Bool
  | .vNone, .vNone => true
  | .vBool a, .vBool b => a == b
  | .vBool a, .vInt n => (if a then (1 : Int) else 0) == n
  | .vInt n, .vBool a => n == (if a then (1 : Int) else 0)
  | .vInt a, .vInt b => a == b
  | .vStr a, .vStr b => a == b
  | .vList as, .vList bs => pyEqList as bs
  | .vDict as, .vDict bs => pyEqDict as bs
  | _, _ => false

/-- Pointwise list equality for `pyEq`. -/
def pyEqList : List PyVal → List PyVal → Bool
  | [], [] => true
  | a :: as, b :: bs => pyEq a b && pyEqList as bs
  | _, _ => false

/-- Itemwise dict equality for `pyEq` (order-sensitive model; the engine
never compares dicts whose key order differs). -/
def pyEqDict : List (String × PyVal) → List (String × PyVal) → Bool
  | [], [] => true
  | (k, v) :: as, (k2, v2) :: bs => k == k2 && pyEq v v2 && pyEqDict as bs
  | _, _ => false

end

/-- Lookup of a string key in a parsed dict's item list. -/
def dictLookup : List (String × PyVal) → String → Option PyVal
  | [], _ => none
  | (k, v) :: rest, key => if k = key then some v else dictLookup rest key

/-- Python subscripting `value[key]`, raising (as `Except.error` with the
exception message) exactly where CPython raises on the engine's value
shapes: a missing dict key is a `KeyError`, subscripting a `str` or
`None` by a string key is a `TypeError`. -/
def pySubscript (v : PyVal) (key : PyVal) : Except String PyVal :=
  match v, key with
  | .vDict xs, .vStr k =>
      match dictLookup xs k with
      | some x => .ok x
      | none => .error ("KeyError: " ++ k)
  | .vStr _, .vStr _ => .error "string indices must be integers"
  | .vNone, _ => .error "NoneType object is not subscriptable"
  | _, _ => .error "object is not subscriptable"

/-- Python dict item assignment `d[k] = x`: an existing key is updated in
place, a new key is appended at the end (CPython insertion order). -/
def dictUpdate : List (String × PyVal) → String → PyVal → List (String × PyVal)
  | [], k, x => [(k, x)]
  | (k0, v0) :: rest, k, x =>
      if k0 = k then (k, x) :: rest else (k0, v0) :: dictUpdate rest k x

/-- Python `d[k] = x` on an arbitrary value: raises `TypeError` when the
target is not a dict. -/
def pyDictSet (v : PyVal) (k : String) (x : PyVal) : Except String PyVal :=
  match v with
  | .vDict xs => .ok (.vDict (dictUpdate xs k x))
  | _ => .error "object does not support item assignment"

/-- `lp` is a prefix of the second list (Boolean). -/
def listPrefixOf : List Char → List Char → Bool
  | [], _ => true
  | _ :: _, [] => false
  | a :: as, b :: bs => a == b && listPrefixOf as bs

/-- Substring occurrence on character lists (Boolean). -/
def listSubstr : List Char → List Char → Bool
  | n, [] => n.isEmpty
  | n, b :: bs => listPrefixOf n (b :: bs) || listSubstr n bs

/-- Python membership `x in s` for a string `s`: defined when the left
operand is a string (substring test), a `TypeError` otherwise. -/
def pyInStr (x : PyVal) (s : String) : Except String Bool :=
  match x with
  | .vStr n => .ok (listSubstr n.data s.data)
  | _ => .error "in <string> requires string as left operand"

/-- Python `str.lower()` (character-wise, as the engine uses it on ASCII
run flags). -/
def strLower (s : String) : String := String.mk (s.data.map Char.toLower)

/-- Whitespace recognized by the modelled `str.strip()`. -/
def isSpaceChar (c : Char) : Bool := c == ' ' || c == '\t' || c == '\n' || c == '\r'

/-- Python `str.strip()`. -/
def pyStrip (s : String) : String :=
  String.mk (((s.data.dropWhile isSpaceChar).reverse.dropWhile isSpaceChar).reverse)

/-! ## RequestDispatcher: tools/request_tool.py -/

/-- The `requests` response object `res`: HTTP status, the parsed JSON
body as `res.json()` would produce it (`error` when the body is not
valid JSON and `res.json()` raises), and `res.elapsed.total_seconds()`
(a float in Python; modelled at integer precision — no claim reads it). -/
structure HttpResponse where
  status_code : Int
  json : Except String PyVal
  elapsed_seconds : Int

/-- The keyword arguments `Requests.send_request` receives per case. -/
structure RequestArgs where
  url : String
  method : String
  data_type : String
  headers : PyVal
  data : PyVal

/-- Outcome of one `self.session.request(...)` call: a response object,
or a raised transport exception (timeout, connection refused, DNS
failure, ...) carrying its message. -/
inductive NetOutcome where
  | ok (res : HttpResponse)
  | exn (msg : String)

/-- The HTTP transport, abstracted: what `self.session.request` does for
the given arguments. -/
def Net : Type := RequestArgs → NetOutcome

/-- One `res = self.session.request(...)` call inside the `try` block of
`Requests.send_request`: on success `res` is bound to the response, on a
transport exception the handler logs and `res` stays `None`.  The second
component records that a request was handed to the session (call-count
instrumentation). -/
def session_request (net : Net) (args : RequestArgs) :
    Option HttpResponse × List RequestArgs :=
  match net args with
  | .ok r => (some r, [args])
  | .exn _ => (none, [args])

/-- `Requests.send_request` (request_tool.py 15-64): dispatches on
`data_type` over the four supported payload modes; an unrecognized mode
is only logged and no request is sent, so `res` remains `None`.  The
surrounding `try/except` swallows every transport exception, hence the
function is total and returns `res` (possibly `None`). -/
def send_request (net : Net) (args : RequestArgs) :
    Option HttpResponse × List RequestArgs :=
  if args.data_type = "params" then session_request net args
  else if args.data_type = "data" then session_request net args
  else if args.data_type = "json" then session_request net args
  else if args.data_type = "file" then session_request net args
  else (none, [])

/-! ## Response folding: tools/reponse_tool.py -/

/-- `Response.result` (reponse_tool.py 10-28): folds `res` into the dict
`{code: int(res.status_code), body: str(res.json()), time_total: ...}`.
Every exception inside the `try` (`res` is `None` so `res.status_code`
raises `AttributeError`; `res.json()` raises on an unparseable body) is
caught and the function falls through to an implicit `return None`. -/
def Response_result : Option HttpResponse → PyVal
  | none => .vNone
  | some res =>
      match res.json with
      | .error _ => .vNone
      | .ok body =>
          .vDict [("code", .vInt res.status_code),
                  ("body", .vStr (pyStr body)),
                  ("time_total", .vInt res.elapsed_seconds)]

/-! ## Case records and the validator/executor: tools/manage.py -/

/-- The `request` sub-dict of a loaded case. -/
structure RequestSpec where
  url : String
  method : String
  headers : PyVal
  data : PyVal

/-- The `expected` sub-dict of a loaded case (strings when loaded from
Excel, arbitrary parsed values when loaded from yaml). -/
structure ExpectedSpec where
  status_code : PyVal
  msg : PyVal
  data : PyVal

/-- A normalized case record as built by the Excel loader and consumed by
`Manage.execute_test_case`. -/
structure TestCase where
  name : String
  run : String
  token : String
  type : String
  request : RequestSpec
  expected : ExpectedSpec
  prev_result : String
  prev_response : String
  row : Nat

/-- The result dict `{name, result, response}` returned by the runner. -/
structure CaseResult where
  name : String
  result : String
  response : PyVal

/-- `Manage.create_result` (manage.py 16-22): the uniform result dict
`{name, result, response}`. -/
def create_result (name : String) (status : String) (response : PyVal) :
    CaseResult :=
  { name := name, result := status, response := response }

/-- Validation component (a): `case[expected][status_code] == response[code]`
(manage.py 41). -/
def status_check (c : TestCase) (code : PyVal) : Bool :=
  pyEq c.expected.status_code code

/-- Validation component (b), the comparison half:
`case[expected][msg] == response[body][msg]` (manage.py 42). -/
def msg_check (c : TestCase) (bodyMsg : PyVal) : Bool :=
  pyEq c.expected.msg bodyMsg

/-- Validation component (c):
`case[expected][data] in str(response[body])` (manage.py 43). -/
def data_check (c : TestCase) (body : PyVal) : Except String Bool :=
  pyInStr c.expected.data (pyStr body)

/-- The `validation_results` list of `Manage.execute_test_case`
(manage.py 40-46), evaluated in Python order: `response[code]`,
`response[body]`, `response[body][msg]` are subscript expressions that
may raise; any raise aborts the list and propagates. -/
def validate (c : TestCase) (response : PyVal) : Except String Bool := do
  let code ← pySubscript response (.vStr "code")
  let check1 := status_check c code
  let body ← pySubscript response (.vStr "body")
  let bodyMsg ← pySubscript body (.vStr "msg")
  let check2 := msg_check c bodyMsg
  let check3 ← data_check c body
  pure (check1 && check2 && check3)

/-- The `request_data` dict built at manage.py 28-34. -/
def request_data_of (c : TestCase) : RequestArgs :=
  { url := c.request.url, method := c.request.method,
    data_type := c.type, headers := c.request.headers,
    data := c.request.data }

/-- `Manage.execute_test_case` (manage.py 24-55): dispatch, fold, run the
three validation checks, and map `all(...)` to `pass`/`fail`; the
enclosing `try/except Exception` converts any raise into a `fail` result
whose response text is `f"执行用例异常: {str(e)}"`.  The second component
is the list of requests actually handed to the HTTP session. -/
def execute_test_case (net : Net) (c : TestCase) :
    CaseResult × List RequestArgs :=
  let sent := send_request net (request_data_of c)
  let response := Response_result sent.1
  match validate c response with
  | .ok allOk =>
      (create_result c.name (if allOk then "pass" else "fail") response, sent.2)
  | .error e =>
      (create_result c.name "fail" (.vStr ("执行用例异常: " ++ e)), sent.2)

/-! ## CaseSource (Excel): tools/excel_tool.py -/

/-- The process-wide configuration the loaders read
(`consts.API_HOST`, `consts.TOKEN`, populated from Config.ini). -/
structure Consts where
  API_HOST : String
  TOKEN : String

/-- The pandas dataframe of the case workbook: rows of optional cells,
`none` being a blank/NaN cell (`pd.notna` false).  `pd.read_excel`
(default `header=0`) consumes the workbook's header row, so row 0 of
the dataframe is already the FIRST DATA ROW and the dataframe's length
is the number of data rows of the table. -/
def Grid : Type := List (List (Option PyVal))

/-- `ExcelPack.COLUMNS` (excel_tool.py 14-28). -/
def COLUMNS : String → Nat
  | "name" => 0
  | "run" => 1
  | "token" => 2
  | "url" => 3
  | "data" => 4
  | "method" => 5
  | "type" => 6
  | "header" => 7
  | "status_code" => 8
  | "expect_msg" => 9
  | "expect_data" => 10
  | "result" => 11
  | "response" => 12
  | _ => 0

/-- `ExcelPack._get_cell_value` (excel_tool.py 48-51):
`str(value).strip() if pd.notna(value) else ""`. -/
def get_cell_value (g : Grid) (row : Nat) (col_name : String) : String :=
  match (g.getD row []).getD (COLUMNS col_name) none with
  | none => ""
  | some v => pyStrip (pyStr v)

/-- One iteration of the loader loop body of `ExcelPack.load_test_cases`
(excel_tool.py 85-111) for dataframe row `row`.  `evalPy` stands for
Python `eval` on the authored `header`/`data` cell text; the dict item
assignment `headers["Authorization"] = consts.TOKEN` raises (failing the
whole load) when the evaluated header cell is not a dict. -/
def build_excel_case (evalPy : String → PyVal) (consts : Consts)
    (g : Grid) (row : Nat) : Except String TestCase :=
  let headerCell := get_cell_value g row "header"
  let headers0 := if headerCell ≠ "" then evalPy headerCell else .vDict []
  let headersE :=
    if get_cell_value g row "token" = "yes" then
      pyDictSet headers0 "Authorization" (.vStr consts.TOKEN)
    else
      .ok headers0
  match headersE with
  | .error e => .error e
  | .ok headers =>
  let dataCell := get_cell_value g row "data"
  .ok
    { name := get_cell_value g row "name"
      run := get_cell_value g row "run"
      token := get_cell_value g row "token"
      type := get_cell_value g row "type"
      request :=
        { url := consts.API_HOST ++ get_cell_value g row "url"
          method := get_cell_value g row "method"
          headers := headers
          data := if dataCell ≠ "" then evalPy dataCell else .vNone }
      expected :=
        { status_code := .vStr (get_cell_value g row "status_code")
          msg := .vStr (get_cell_value g row "expect_msg")
          data := .vStr (get_cell_value g row "expect_data") }
      prev_result := get_cell_value g row "result"
      prev_response := get_cell_value g row "response"
      row := row }

/-- The loader's `for` loop: build a case per row, appending in row
order; an exception in any iteration aborts the whole load. -/
def load_rows (build : Nat → Except String TestCase) :
    List Nat → Except String (List TestCase)
  | [] => .ok []
  | r :: rs =>
      match build r with
      | .error e => .error e
      | .ok c =>
          match load_rows build rs with
          | .error e => .error e
          | .ok cs => .ok (c :: cs)

/-- `ExcelPack.load_test_cases` (excel_tool.py 80-112):
`for row in range(1, len(self.df))` over the dataframe `g`.  Note the
loop starts at 1 although dataframe row 0 is a data row (the header was
already consumed by `pd.read_excel`), so the table's first data case is
never loaded. -/
def load_test_cases (evalPy : String → PyVal) (consts : Consts)
    (g : Grid) : Except String (List TestCase) :=
  load_rows (build_excel_case evalPy consts g) (List.range' 1 (g.length - 1))

/-! ## CaseSource (yaml): tools/yaml_tool.py -/

/-- The inner loop of `YamlPack.load_test_cases` (yaml_tool.py 31-34) for
one entry `a` of the `Case` list: `for k, v in a.items(): if k == "Test"`,
collecting the `v`s in dict order; a non-dict entry has no `.items()`
and raises. -/
def entry_tests : PyVal → Except String (List PyVal)
  | .vDict items => .ok ((items.filter fun kv => kv.1 == "Test").map Prod.snd)
  | _ => .error "object has no attribute items"

/-- The outer loop of `YamlPack.load_test_cases` over the `Case` list,
appending each entry's `Test` values in document order. -/
def yaml_collect : List PyVal → Except String (List PyVal)
  | [] => .ok []
  | a :: rest =>
      match entry_tests a with
      | .error e => .error e
      | .ok ts =>
          match yaml_collect rest with
          | .error e => .error e
          | .ok rs => .ok (ts ++ rs)

/-- `YamlPack.load_test_cases` (yaml_tool.py 28-35) over the parsed
document `self.data` (the yaml text has already had `${host}`/`${token}`
placeholders substituted at `__init__`; a placeholder-free document
parses to itself).  `self.data["Case"]` must exist and be a list. -/
def load_test_cases_yaml (data : PyVal) : Except String (List PyVal) :=
  match pySubscript data (.vStr "Case") with
  | .error e => .error e
  | .ok (.vList entries) => yaml_collect entries
  | .ok _ => .error "object is not iterable"

/-! ## ResultWriter: tools/excel_tool.py -/

/-- One workbook cell as openpyxl sees it: its value and its font
(`bold`, RGB color string), `none` when no explicit font was set. -/
structure CellData where
  value : PyVal
  font : Option (Bool × String)

/-- The on-disk workbook: a cell for every (1-based) row/column pair. -/
def Worksheet : Type := Nat → Nat → CellData

/-- `ExcelPack.STYLES` (excel_tool.py 31-35). -/
def STYLES : String → Option (Nat × String)
  | "pass" => some (3, "00FF00")
  | "fail" => some (4, "FF0000")
  | "skip" => some (6, "800080")
  | _ => none

/-- The state `_write_cell` mutates: the in-memory dataframe and the
on-disk workbook (reloaded fresh and saved on every write). -/
structure ExcelFileState where
  df : Grid
  ws : Worksheet

/-- `self.df.iloc[row, col] = value` on the dataframe mirror. -/
def dfSet (g : Grid) (row col : Nat) (v : PyVal) : Grid :=
  g.set row ((g.getD row []).set col (some v))

/-- `ExcelPack._write_cell` (excel_tool.py 53-78): update the dataframe,
reload the workbook, write `value` into the physical cell
`(row + 2, col + 1)` (openpyxl is 1-based and the worksheet's physical
row 1 is the header row that `pd.read_excel` consumed, so dataframe row
`r` lives at physical row `r + 2`), apply the verdict-keyed bold/color
font when `style` is a truthy string naming a configured style, and
save. -/
def write_cell (st : ExcelFileState) (row : Nat) (col_name : String)
    (value : String) (style : Option String) : ExcelFileState :=
  let col := COLUMNS col_name
  let ws2 : Worksheet := fun r c =>
    if r = row + 2 ∧ c = col + 1 then
      let old := st.ws r c
      match style with
      | some s =>
          if s ≠ "" then
            match STYLES s with
            | some cfg => { value := .vStr value, font := some (true, cfg.2) }
            | none => { old with value := .vStr value }
          else { old with value := .vStr value }
      | none => { old with value := .vStr value }
    else st.ws r c
  { df := dfSet st.df row col (.vStr value), ws := ws2 }

/-- `ExcelPack.write_to_excel` (excel_tool.py 114-123): write
`str(result.get("response", ""))` into the `response` column, then the
verdict into the `result` column styled by the verdict itself.  (The
surrounding `try/except` only guards file-system failures, which are
outside this model.) -/
def write_to_excel (st : ExcelFileState) (row : Nat) (result : CaseResult) :
    ExcelFileState :=
  let st1 := write_cell st row "response" (pyStr result.response) none
  write_cell st1 row "result" result.result (some result.result)

/-! ## CaseRunner: testCase/api/test_api.py -/

/-- `TestExcel.test_excel_api` (test_api.py 20-43) for one parametrized
case: a case whose `run` flag is not `yes` (lower-cased) gets a
skip-styled result written back and `pytest.skip()` is raised before any
dispatch; otherwise the case is executed, its result written back, and
the pass/fail assertion surfaces to the harness.  Returns the result,
the backing-store state after write-back, and the requests handed to the
HTTP session. -/
def test_excel_api (net : Net) (st : ExcelFileState) (c : TestCase) :
    CaseResult × ExcelFileState × List RequestArgs :=
  if strLower c.run ≠ "yes" then
    let result := create_result c.name "skip" .vNone
    (result, write_to_excel st c.row result, [])
  else
    let r := execute_test_case net c
    (r.1, write_to_excel st c.row r.1, r.2)

/-- The whole parametrized run: pytest invokes `test_excel_api` once per
loaded case, in order, threading the backing store; an assertion failure
in one case does not stop the following cases. -/
def run_suite (net : Net) : ExcelFileState → List TestCase →
    List CaseResult × ExcelFileState
  | st, [] => ([], st)
  | st, c :: cs =>
      let r := test_excel_api net st c
      let rest := run_suite net r.2.1 cs
      (r.1 :: rest.1, rest.2)

/-! ## Concrete engine inputs used by the claim theorems -/

/-- A parsed response body `{"msg": "ok", "id": 1}`. -/
def demoBody : PyVal := .vDict [("msg", .vStr "ok"), ("id", .vInt 1)]

/-- A stub server answering status 200 with `demoBody`. -/
def demoNet : Net := fun _ => .ok ⟨200, .ok demoBody, 1⟩

/-- The spec's concrete `get_user` scenario, as a yaml-authored case
(expected status is the integer 200, so the status comparison itself is
type-compatible). -/
def demoCase : TestCase :=
  { name := "get_user", run := "yes", token := "no", type := "params",
    request := { url := "http://h/api/user/1", method := "GET",
                 headers := .vDict [], data := .vNone },
    expected := { status_code := .vInt 200, msg := .vStr "ok", data := .vStr "id" },
    prev_result := "", prev_response := "", row := 1 }

/-- A transport that times out on every request. -/
def timeoutNet : Net := fun _ => .exn "Read timed out"

/-- A transport whose connection is refused on every request. -/
def refusedNet : Net := fun _ => .exn "Connection refused"

/-- Request arguments in the supported `params` payload mode. -/
def paramsArgs : RequestArgs :=
  { url := "http://h/api/user/1", method := "GET", data_type := "params",
    headers := .vDict [], data := .vNone }

/-- The shared configuration the loaders read in the examples. -/
def engineConsts : Consts := ⟨"h", "tok"⟩

/-- `eval` is never reached on the example grids (their `header`/`data`
cells are blank). -/
def noEval : String → PyVal := fun _ => .vNone

/-- A dataframe of two (all-blank) data rows: its workbook has a header
row, consumed by `pd.read_excel`, and two authored data rows. -/
def blankGrid : Grid := [[], []]

/-- The case record the loader builds from `blankGrid`'s row 1 (its
second data row; row 0 is skipped by `range(1, len(df))`). -/
def blankCase : TestCase :=
  { name := "", run := "", token := "", type := "",
    request := { url := "h", method := "", headers := .vDict [], data := .vNone },
    expected := { status_code := .vStr "", msg := .vStr "", data := .vStr "" },
    prev_result := "", prev_response := "", row := 1 }

/-- A dataframe of exactly one data row (a table authored with a single
case, named `first_case`): the workbook's header row was consumed by
`pd.read_excel`. -/
def oneRowFrame : Grid := [[some (.vStr "first_case")]]

/-- A dataframe whose row 1 carries `"200"` in the expected-status
column. -/
def statusGrid : Grid :=
  [[], [none, none, none, none, none, none, none, none, some (.vStr "200")]]

/-- The case record the loader builds from `statusGrid`'s row 1. -/
def statusCase : TestCase :=
  { name := "", run := "", token := "", type := "",
    request := { url := "h", method := "", headers := .vDict [], data := .vNone },
    expected := { status_code := .vStr "200", msg := .vStr "", data := .vStr "" },
    prev_result := "", prev_response := "", row := 1 }

/-- Observer: the `Authorization` entry of a headers mapping (`none`
when the mapping has no such key or is not a dict). -/
def headersAuth : PyVal → Option PyVal
  | .vDict xs => dictLookup xs "Authorization"
  | _ => none

/-- An initially unstyled, empty backing store. -/
def emptyState : ExcelFileState := ⟨[], fun _ _ => ⟨.vNone, none⟩⟩

/-- A case not marked for execution (run flag `"No"`). -/
def skipCase : TestCase := { blankCase with run := "No", row := 0 }

/-- A transport whose connection aborts on every request. -/
def abortNet : Net := fun _ => .exn "Connection aborted"

/-- An executed case used to exercise the exception boundary. -/
def abortCase : TestCase := { demoCase with name := "create_user", type := "json" }

/-- A dataframe whose row 1 has `"yes"` in the auth-flag column. -/
def tokenGrid : Grid := [[], [none, none, some (.vStr "yes")]]

/-- The case record the loader builds from `tokenGrid`'s row 1. -/
def tokenCase : TestCase :=
  { name := "", run := "", token := "yes", type := "",
    request := { url := "h", method := "",
                 headers := .vDict [("Authorization", .vStr "tok")],
                 data := .vNone },
    expected := { status_code := .vStr "", msg := .vStr "", data := .vStr "" },
    prev_result := "", prev_response := "", row := 1 }

/-- A headers mapping authored without an `Authorization` key. -/
def yamlHeaders : PyVal := .vDict []

/-- A yaml-authored request sub-dict carrying `yamlHeaders`. -/
def yamlReq : PyVal := .vDict [("headers", yamlHeaders)]

/-- A yaml `Test` leaf whose auth flag is `"yes"` but whose headers have
no `Authorization` entry (the authored text used no `${token}`
placeholder, so `Template.substitute` is the identity on it). -/
def yamlTestNode : PyVal := .vDict [("token", .vStr "yes"), ("request", yamlReq)]

/-- A yaml document with one `Case` entry nesting `yamlTestNode`. -/
def yamlDoc : PyVal := .vDict [("Case", .vList [.vDict [("Test", yamlTestNode)]])]

/-! ## Helper lemmas -/

/-- Python `==` between a string and an integer is always `False`. -/
theorem pyEq_str_int (s : String) (n : Int) : pyEq (.vStr s) (.vInt n) = false := by
  simp [pyEq]

/-- The empty character list is a substring of every list. -/
theorem listSubstr_nil (l : List Char) : listSubstr [] l = true := by
  induction l with
  | nil => rfl
  | cons b bs ih => simp [listSubstr, listPrefixOf]

/-- After `d[k] = x`, looking up `k` yields `x`. -/
theorem dictLookup_dictUpdate (xs : List (String × PyVal)) (k : String) (x : PyVal) :
    dictLookup (dictUpdate xs k x) k = some x := by
  induction xs with
  | nil => simp [dictUpdate, dictLookup]
  | cons kv rest ih =>
      obtain ⟨k0, v0⟩ := kv
      by_cases h : k0 = k
      · simp [dictUpdate, h, dictLookup]
      · simp [dictUpdate, h, dictLookup, ih]

/-- A successful `load_rows` yields one case per listed row, in order. -/
theorem load_rows_ok (build : Nat → Except String TestCase) :
    ∀ (l : List Nat) (cs : List TestCase), load_rows build l = .ok cs →
      cs.length = l.length ∧
      ∀ i (h1 : i < l.length) (h2 : i < cs.length),
        build (l.get ⟨i, h1⟩) = .ok (cs.get ⟨i, h2⟩) := by
  intro l
  induction l with
  | nil =>
      intro cs h
      simp only [load_rows] at h
      cases h
      exact ⟨rfl, fun i h1 _ => absurd h1 (by simp)⟩
  | cons r rs ih =>
      intro cs h
      simp only [load_rows] at h
      cases hb : build r with
      | error e => rw [hb] at h; cases h
      | ok c =>
          rw [hb] at h
          cases hr : load_rows build rs with
          | error e => rw [hr] at h; cases h
          | ok cs0 =>
              rw [hr] at h
              cases h
              obtain ⟨hlen, hget⟩ := ih cs0 hr
              refine ⟨by simp [hlen], ?_⟩
              intro i h1 h2
              cases i with
              | zero => simpa using hb
              | succ j => exact hget j (by simpa using h1) (by simpa using h2)

/-! ## Claim theorems -/

/-- C1. The claim reads: the verdict is `pass` iff (a) expected status
equals actual status, (b) expected message equals the `msg` field of the
parsed body, and (c) the expected fragment is a substring of the
stringified body.  At `demoCase` against `demoNet` all three of those
checks hold, yet the code produces verdict `fail`: `Response.result`
stores `str(res.json())`, so `response["body"]["msg"]` in
`Manage.execute_test_case` indexes a *string* with the key `"msg"`,
raising `TypeError`, which the case-level handler converts to `fail`.
The `pass` verdict is unreachable for every executed case. -/
theorem verdict_fail_despite_three_matches :
    status_check demoCase (.vInt 200) = true ∧
    pySubscript demoBody (.vStr "msg") = .ok (.vStr "ok") ∧
    msg_check demoCase (.vStr "ok") = true ∧
    data_check demoCase demoBody = .ok true ∧
    (execute_test_case demoNet demoCase).1 =
      create_result "get_user" "fail"
        (.vStr ("执行用例异常: " ++ "string indices must be integers")) :=
  ⟨rfl, rfl, rfl, rfl, rfl⟩

/-- C2 (amended). When the transport raises (timeout, connection
refused, DNS failure), `Requests.send_request` never propagates the
exception — but it returns `None`, not a synthetic summary: no
`status_code = 0` response is ever constructed. -/
theorem transport_failure_yields_none :
    ∀ (net : Net) (args : RequestArgs) (msg : String),
      net args = .exn msg → (send_request net args).1 = none := by
  intro net args msg h
  unfold send_request
  split_ifs <;> simp [session_request, h]

/-- C2 witness: a simulated timeout in `params` mode is absorbed and the
dispatcher returns `None`. -/
theorem transport_failure_yields_none_witness :
    (send_request timeoutNet paramsArgs).1 = none :=
  transport_failure_yields_none timeoutNet paramsArgs "Read timed out" rfl

/-- C2 counterexample to the claim as stated: on a connection-refused
dispatch the claimed synthetic summary with `status_code = 0` does not
exist — the dispatcher returns no response object at all. -/
theorem transport_failure_no_zero_status_summary :
    (send_request refusedNet paramsArgs).1 = none := rfl

/-- C3. The Excel loader does NOT yield one case per data row:
`pd.read_excel` already consumes the header row, so the dataframe `g`
holds exactly the `N = g.length` data rows of the table — yet the loop
`for row in range(1, len(self.df))` starts at 1 and skips dataframe row
0, the table's first data case.  (i) A successful load yields exactly
`N - 1` cases, the i-th built from dataframe row `1 + i`, so no case is
ever built from row 0; (ii) concretely, loading a table authored with a
single data case (`oneRowFrame`) yields NO cases at all. -/
theorem load_skips_first_data_row :
    (∀ (evalPy : String → PyVal) (consts : Consts) (g : Grid)
        (cases : List TestCase),
        load_test_cases evalPy consts g = .ok cases →
        cases.length = g.length - 1 ∧
        ∀ i (h : i < cases.length),
          build_excel_case evalPy consts g (1 + i) = .ok (cases.get ⟨i, h⟩)) ∧
    load_test_cases noEval engineConsts oneRowFrame = .ok [] := by
  refine ⟨?_, rfl⟩
  intro evalPy consts g cases hload
  obtain ⟨hlen, hget⟩ := load_rows_ok _ _ _ hload
  have hrl : (List.range' 1 (g.length - 1)).length = g.length - 1 := by simp
  refine ⟨by rw [hlen, hrl], ?_⟩
  intro i h
  have h1 : i < (List.range' 1 (g.length - 1)).length := hlen ▸ h
  have hval : (List.range' 1 (g.length - 1)).get ⟨i, h1⟩ = 1 + i := by
    simp [List.get_eq_getElem, List.getElem_range'_1]
  have := hget i h1 h
  rwa [hval] at this

/-- C3 witness: the two-data-row table `blankGrid` loads only one case,
and that case is built from dataframe row 1 — row 0, the first data
row, is dropped. -/
theorem load_skips_first_data_row_witness :
    ([blankCase].length = blankGrid.length - 1) ∧
    build_excel_case noEval engineConsts blankGrid (1 + 0) = .ok blankCase := by
  have h := load_skips_first_data_row.1 noEval engineConsts blankGrid
    [blankCase] (by rfl)
  exact ⟨h.1, h.2 0 (by decide)⟩

/-- C4. The status-code comparison of the validator is NOT coercion
tolerant: every Excel-loaded case carries its expected status as a
Python string (`_get_cell_value` stringifies the cell), and Python
`"200" == 200` is `False`, so the status component fails against every
integer actual status.  The claim's example input (expected `"200"`,
actual `200`) is a failing input. -/
theorem status_check_string_vs_int_always_false :
    ∀ (evalPy : String → PyVal) (consts : Consts) (g : Grid) (row : Nat)
      (c : TestCase), build_excel_case evalPy consts g row = .ok c →
      ∀ n : Int, status_check c (.vInt n) = false := by
  intro evalPy consts g row c hb n
  unfold build_excel_case at hb
  dsimp only at hb
  split at hb
  · cases hb
  · cases hb
    simp [status_check, pyEq_str_int]

/-- C4 witness: the case loaded from `statusGrid` (expected status cell
`"200"`) fails the status component against actual status 200. -/
theorem status_check_string_vs_int_always_false_witness :
    status_check statusCase (.vInt 200) = false :=
  status_check_string_vs_int_always_false noEval engineConsts statusGrid 1
    statusCase (by rfl) 200

/-- C5. A case whose run flag is not `yes` (compared after `.lower()`)
gets verdict `skip`, hands no request to the HTTP session, and its
result cell is written back as `skip` with the skip style (bold, purple
`800080`). -/
theorem skip_flag_skips_without_dispatch :
    ∀ (net : Net) (st : ExcelFileState) (c : TestCase),
      strLower c.run ≠ "yes" →
      (test_excel_api net st c).1.result = "skip" ∧
      (test_excel_api net st c).2.2 = [] ∧
      (test_excel_api net st c).2.1.ws (c.row + 2) (COLUMNS "result" + 1) =
        ⟨.vStr "skip", some (true, "800080")⟩ := by
  intro net st c h
  refine ⟨?_, ?_, ?_⟩ <;>
    simp [test_excel_api, h, write_to_excel, write_cell, create_result,
          STYLES, COLUMNS]

/-- C5 witness: the `"No"`-flagged case is skipped without dispatch and
skip-styled. -/
theorem skip_flag_skips_without_dispatch_witness :
    (test_excel_api demoNet emptyState skipCase).1.result = "skip" ∧
    (test_excel_api demoNet emptyState skipCase).2.2 = [] ∧
    (test_excel_api demoNet emptyState skipCase).2.1.ws (skipCase.row + 2)
        (COLUMNS "result" + 1) = ⟨.vStr "skip", some (true, "800080")⟩ :=
  skip_flag_skips_without_dispatch demoNet emptyState skipCase (by decide)

/-- C6. (i) Any exception raised while validating a dispatched case is
caught at the `execute_test_case` boundary and converted into a `fail`
result whose response text carries the exception message; (ii) the suite
always produces one result per case — no case's internal fault aborts
the remaining cases. -/
theorem case_exception_caught_as_fail :
    (∀ (net : Net) (c : TestCase) (e : String),
        validate c (Response_result (send_request net (request_data_of c)).1) =
          .error e →
        (execute_test_case net c).1 =
          create_result c.name "fail" (.vStr ("执行用例异常: " ++ e))) ∧
    (∀ (net : Net) (st : ExcelFileState) (cases : List TestCase),
        (run_suite net st cases).1.length = cases.length) := by
  constructor
  · intro net c e h
    simp [execute_test_case, h]
  · intro net st cases
    induction cases generalizing st with
    | nil => rfl
    | cons c cs ih => simp [run_suite, ih]

/-- C6 witness: an aborted connection leaves `response = None`, whose
subscripting raises; the executor returns a `fail` result carrying the
exception text. -/
theorem case_exception_caught_as_fail_witness :
    (execute_test_case abortNet abortCase).1 =
      create_result "create_user" "fail"
        (.vStr ("执行用例异常: " ++ "NoneType object is not subscriptable")) :=
  case_exception_caught_as_fail.1 abortNet abortCase
    "NoneType object is not subscriptable" rfl

/-- C7 (amended). A case whose expected data fragment cell is empty has
a fragment check that matches EVERY response body — in Python the empty
string is a substring of any string — so an empty fragment never blocks
a `pass` on its own (the claim's "never matches a non-empty body" is the
opposite of the code's behavior). -/
theorem empty_fragment_matches_every_body :
    ∀ (c : TestCase) (body : PyVal), c.expected.data = .vStr "" →
      data_check c body = .ok true := by
  intro c body h
  simp only [data_check, pyInStr, h]
  exact congrArg Except.ok (listSubstr_nil _)

/-- C7 witness: the blank-fragment case's check accepts a non-empty
body. -/
theorem empty_fragment_matches_every_body_witness :
    data_check blankCase (.vStr "nonempty response body") = .ok true :=
  empty_fragment_matches_every_body blankCase (.vStr "nonempty response body") rfl

/-- C7 counterexample to the claim as stated: the empty expected
fragment of `blankCase` DOES match the non-empty body `"abc"`. -/
theorem empty_fragment_matches_nonempty_body :
    data_check blankCase (.vStr "abc") = .ok true ∧ "abc" ≠ "" :=
  ⟨rfl, by decide⟩

/-- C8 (amended). Excel-sourced cases with auth flag `"yes"` leave the
loader with an `Authorization` header already bound to the shared
configuration token — the injection happens inside `load_test_cases`,
before any dispatch.  (The yaml loader, by contrast, performs no such
injection; see the counterexample.) -/
theorem excel_token_injected_at_load :
    ∀ (evalPy : String → PyVal) (consts : Consts) (g : Grid) (row : Nat)
      (c : TestCase),
      get_cell_value g row "token" = "yes" →
      build_excel_case evalPy consts g row = .ok c →
      headersAuth c.request.headers = some (.vStr consts.TOKEN) := by
  intro evalPy consts g row c htok hb
  unfold build_excel_case at hb
  dsimp only at hb
  rw [if_pos htok] at hb
  split at hb
  · cases hb
  · cases hb
    rename_i headers heq
    unfold pyDictSet at heq
    split at heq
    · cases heq
      simp [headersAuth, dictLookup_dictUpdate]
    · cases heq

/-- C8 witness: the case loaded from `tokenGrid` already carries
`Authorization = tok` in its headers. -/
theorem excel_token_injected_at_load_witness :
    headersAuth tokenCase.request.headers = some (.vStr "tok") :=
  excel_token_injected_at_load noEval engineConsts tokenGrid 1 tokenCase
    (by rfl) (by rfl)

/-- C8 counterexample to the claim as stated: the yaml loader yields the
`Test` node unchanged, so a yaml case whose auth flag is `"yes"` but
whose authored headers have no `Authorization` entry reaches the runner
without one. -/
theorem yaml_token_case_lacks_authorization :
    load_test_cases_yaml yamlDoc = .ok [yamlTestNode] ∧
    pySubscript yamlTestNode (.vStr "token") = .ok (.vStr "yes") ∧
    pySubscript yamlTestNode (.vStr "request") = .ok yamlReq ∧
    headersAuth yamlHeaders = none :=
  ⟨rfl, rfl, rfl, rfl⟩

/-- C9. (i) `_write_cell` targeting logical row `row` and column
`col_name` leaves the value and the font of every other physical cell of
the workbook unchanged; (ii) the physical cell it writes sits at
1-based row `row + 2` — the logical row index offset by the header row
plus openpyxl's 1-based origin — and column `col + 1`. -/
theorem write_cell_frame_and_offset :
    (∀ (st : ExcelFileState) (row : Nat) (col_name value : String)
        (style : Option String) (r c : Nat),
        r ≠ row + 2 ∨ c ≠ COLUMNS col_name + 1 →
        (write_cell st row col_name value style).ws r c = st.ws r c) ∧
    (∀ (st : ExcelFileState) (row : Nat) (col_name value : String)
        (style : Option String),
        ((write_cell st row col_name value style).ws (row + 2)
            (COLUMNS col_name + 1)).value = .vStr value) := by
  constructor
  · intro st row col_name value style r c h
    have hne : ¬(r = row + 2 ∧ c = COLUMNS col_name + 1) := by tauto
    simp [write_cell, hne]
  · intro st row col_name value style
    cases style with
    | none => simp [write_cell]
    | some s =>
        by_cases hs : s = ""
        · subst hs; simp [write_cell]
        · cases hSTY : STYLES s <;> simp [write_cell, hs, hSTY]

/-- C9 witness: writing `pass` into logical row 0's result column leaves
the unrelated cell (1,1) untouched. -/
theorem write_cell_frame_and_offset_witness :
    (write_cell emptyState 0 "result" "pass" (some "pass")).ws 1 1 =
      emptyState.ws 1 1 :=
  write_cell_frame_and_offset.1 emptyState 0 "result" "pass" (some "pass") 1 1
    (by decide)

/-- C10. A skipped case hands the writer a result whose `response` is
`None`, and the write-back stores the literal string `"None"` —
`str(None)` — into that row's response-text cell instead of leaving it
empty. -/
theorem skip_writes_literal_none_string :
    ∀ (net : Net) (st : ExcelFileState) (c : TestCase),
      strLower c.run ≠ "yes" →
      (test_excel_api net st c).1.response = .vNone ∧
      ((test_excel_api net st c).2.1.ws (c.row + 2)
          (COLUMNS "response" + 1)).value = .vStr "None" := by
  intro net st c h
  constructor
  · simp [test_excel_api, h, create_result]
  · simp [test_excel_api, h, write_to_excel, write_cell, create_result,
          COLUMNS, pyStr, pyRepr]

/-- C10 witness: skipping the `"No"`-flagged case writes the string
`"None"` into its response cell. -/
theorem skip_writes_literal_none_string_witness :
    (test_excel_api demoNet emptyState skipCase).1.response = .vNone ∧
    ((test_excel_api demoNet emptyState skipCase).2.1.ws (skipCase.row + 2)
        (COLUMNS "response" + 1)).value = .vStr "None" :=
  skip_writes_literal_none_string demoNet emptyState skipCase (by decide)

end Archives
